import Mathlib

/-!
Verification of the geofence event-processing core: the fallback region
classifier (`arcgis_geofence_service.py`), the zone-transition tracker and
route-based taxi position simulator (`us_taxi_simulation.py`).

Conventions of the embedding:
* Python floats are modelled as exact rationals (`ℚ`); every arithmetic
  operation of the source (`+`, `-`, `*`, `/`, `min`, comparisons) is mapped
  to the corresponding exact operation on `ℚ`.
* The source computes `distance = sqrt((lat-zlat)^2 + (lng-zlng)^2)` and only
  ever compares distances with each other or with the constant threshold
  `2.0`.  Since `sqrt` is strictly monotone on nonnegative reals, comparing
  square roots is equivalent to comparing the squared values; the embedding
  therefore works with squared distances throughout and the threshold `2.0`
  becomes `4.0`.  This keeps every definition executable over `ℚ`.
* Python's `float('inf')` initial minimum is modelled as `⊤ : WithTop ℚ`.
* `random.uniform(600, 1200)` draws are modelled as oracle parameters
  (`newSpeed`); theorems that talk about the configured speed range constrain
  the oracle to `[600, 1200]`.
* Wall-clock values (`datetime.now`, `last_update`, event timestamps) are
  external inputs; the per-tick elapsed time is passed in as a parameter and
  timestamps are dropped from the event record.
* The external Cosmos event sink is modelled as an oracle
  `TraceEvent → Except String Unit`; `except`-style failure corresponds to a
  Python exception raised by `cosmos_service.store_trace_event`.
-/

set_option maxRecDepth 8000

set_option allowUnsafeReducibility true in
attribute [semireducible] Rat.add Rat.sub Rat.mul Rat.div Rat.inv Rat.blt Rat.neg Rat.ofScientific

/-! ## Data model: `arcgis_geofence_service.StateZone` and the fallback reference set -/

/-- Embeds the `StateZone` dataclass of `arcgis_geofence_service.py` (the
`geometry` field is always `None` for fallback zones and is omitted). -/
structure StateZone where
  id : String
  name : String
  state_abbr : String
  description : String
  center_lat : ℚ
  center_lng : ℚ
deriving DecidableEq, Repr

/-- Builds one fallback zone exactly as `_initialize_fallback_zones` does:
`StateZone(id=abbr, name=..., state_abbr=abbr.upper(), description=f"{name} state boundary", ...)`. -/
def mkStateZone (abbr : String) (nm : String) (abbrUpper : String) (lat lng : ℚ) : StateZone :=
  { id := abbr, name := nm, state_abbr := abbrUpper,
    description := nm ++ " state boundary", center_lat := lat, center_lng := lng }

/-- The static fallback reference set (`fallback_states` in
`_initialize_fallback_zones`), in Python dict insertion order: the 50 US
states followed by DC. -/
def fallbackStates : List StateZone :=
  [ mkStateZone "al" "Alabama" "AL" 32.318231 (-86.902298),
    mkStateZone "ak" "Alaska" "AK" 63.588753 (-154.493062),
    mkStateZone "az" "Arizona" "AZ" 34.048928 (-111.093731),
    mkStateZone "ar" "Arkansas" "AR" 35.20105 (-91.831833),
    mkStateZone "ca" "California" "CA" 36.778261 (-119.417932),
    mkStateZone "co" "Colorado" "CO" 39.550051 (-105.782067),
    mkStateZone "ct" "Connecticut" "CT" 41.603221 (-73.087749),
    mkStateZone "de" "Delaware" "DE" 38.910832 (-75.52767),
    mkStateZone "fl" "Florida" "FL" 27.664827 (-81.515754),
    mkStateZone "ga" "Georgia" "GA" 32.157435 (-82.907123),
    mkStateZone "hi" "Hawaii" "HI" 19.898682 (-155.665857),
    mkStateZone "id" "Idaho" "ID" 44.068202 (-114.742041),
    mkStateZone "il" "Illinois" "IL" 40.633125 (-89.398528),
    mkStateZone "in" "Indiana" "IN" 40.551217 (-85.602364),
    mkStateZone "ia" "Iowa" "IA" 41.878003 (-93.097702),
    mkStateZone "ks" "Kansas" "KS" 39.011902 (-98.484246),
    mkStateZone "ky" "Kentucky" "KY" 37.839333 (-84.270018),
    mkStateZone "la" "Louisiana" "LA" 30.984298 (-91.962333),
    mkStateZone "me" "Maine" "ME" 45.253783 (-69.445469),
    mkStateZone "md" "Maryland" "MD" 39.045755 (-76.641271),
    mkStateZone "ma" "Massachusetts" "MA" 42.407211 (-71.382437),
    mkStateZone "mi" "Michigan" "MI" 44.314844 (-85.602364),
    mkStateZone "mn" "Minnesota" "MN" 46.729553 (-94.6859),
    mkStateZone "ms" "Mississippi" "MS" 32.354668 (-89.398528),
    mkStateZone "mo" "Missouri" "MO" 37.964253 (-91.831833),
    mkStateZone "mt" "Montana" "MT" 46.879682 (-110.362566),
    mkStateZone "ne" "Nebraska" "NE" 41.492537 (-99.901813),
    mkStateZone "nv" "Nevada" "NV" 38.80261 (-116.419389),
    mkStateZone "nh" "New Hampshire" "NH" 43.193852 (-71.572395),
    mkStateZone "nj" "New Jersey" "NJ" 40.058324 (-74.405661),
    mkStateZone "nm" "New Mexico" "NM" 34.97273 (-105.032363),
    mkStateZone "ny" "New York" "NY" 43.299428 (-74.217933),
    mkStateZone "nc" "North Carolina" "NC" 35.759573 (-79.0193),
    mkStateZone "nd" "North Dakota" "ND" 47.551493 (-101.002012),
    mkStateZone "oh" "Ohio" "OH" 40.417287 (-82.907123),
    mkStateZone "ok" "Oklahoma" "OK" 35.007752 (-97.092877),
    mkStateZone "or" "Oregon" "OR" 43.804133 (-120.554201),
    mkStateZone "pa" "Pennsylvania" "PA" 41.203322 (-77.194525),
    mkStateZone "ri" "Rhode Island" "RI" 41.580095 (-71.477429),
    mkStateZone "sc" "South Carolina" "SC" 33.836081 (-81.163725),
    mkStateZone "sd" "South Dakota" "SD" 43.969515 (-99.901813),
    mkStateZone "tn" "Tennessee" "TN" 35.517491 (-86.580447),
    mkStateZone "tx" "Texas" "TX" 31.968599 (-99.901813),
    mkStateZone "ut" "Utah" "UT" 39.32098 (-111.093731),
    mkStateZone "vt" "Vermont" "VT" 44.558803 (-72.577841),
    mkStateZone "va" "Virginia" "VA" 37.431573 (-78.656894),
    mkStateZone "wa" "Washington" "WA" 47.751074 (-120.740139),
    mkStateZone "wv" "West Virginia" "WV" 38.597626 (-80.454903),
    mkStateZone "wi" "Wisconsin" "WI" 43.78444 (-88.787868),
    mkStateZone "wy" "Wyoming" "WY" 43.075968 (-107.290284),
    mkStateZone "dc" "District of Columbia" "DC" 38.907192 (-77.036871) ]

/-- The sequence of zones `self.state_zones.values()` iterates over.
`_initialize_fallback_zones` stores every zone under two dict keys (its
abbreviation and its lower-cased name, which never collide), so the dict's
values, in insertion order, hold each zone twice consecutively. -/
def stateZonesValues : List StateZone :=
  fallbackStates.flatMap fun z => [z, z]

/-! ## `ArcGISGeofenceService._classify_point_fallback` -/

/-- Squared planar distance from the point `(longitude, latitude)` to a zone's
centroid.  The source computes
`((latitude - zone.center_lat) ** 2 + (longitude - zone.center_lng) ** 2) ** 0.5`;
the square root is dropped here (see the header note on squared distances). -/
def d2 (lng lat : ℚ) (z : StateZone) : ℚ :=
  (lat - z.center_lat) ^ 2 + (lng - z.center_lng) ^ 2

/-- The loop of `_classify_point_fallback`: the accumulator mirrors the
mutable pair `(min_distance, closest_state)`, starting at
`(float('inf'), None)`; a zone strictly closer than the running minimum
replaces it. -/
def classifyFold (lng lat : ℚ) : List StateZone → WithTop ℚ × Option String → WithTop ℚ × Option String
  | [], acc => acc
  | z :: rest, (minD, closest) =>
    if ((d2 lng lat z : ℚ) : WithTop ℚ) < minD then
      classifyFold lng lat rest ((d2 lng lat z : ℚ), some z.name)
    else
      classifyFold lng lat rest (minD, closest)

/-- Embeds `_classify_point_fallback`: sweep all `state_zones.values()`, then
`return closest_state if min_distance < 2.0 else None` (threshold squared:
`4.0`). -/
def classify_point_fallback (lng lat : ℚ) : Option String :=
  let acc := classifyFold lng lat stateZonesValues (⊤, none)
  if acc.1 < ((4 : ℚ) : WithTop ℚ) then acc.2 else none

/-! ## Data model: `us_taxi_simulation.py` -/

/-- Embeds the `RoutePoint` dataclass. -/
structure RoutePoint where
  state_name : String
  state_abbr : String
  latitude : ℚ
  longitude : ℚ
  distance_km : ℚ := 0
deriving DecidableEq, Repr

/-- Embeds the `TaxiRoute` dataclass. -/
structure TaxiRoute where
  pickup : RoutePoint
  dropoff : RoutePoint
  distance_km : ℚ
deriving DecidableEq, Repr

/-- Embeds the `TaxiState` dataclass.  The wall-clock `last_update` field is
dropped: the elapsed time between ticks is passed to the position update as a
parameter (see the header note). -/
structure TaxiState where
  taxi_id : String
  current_lat : ℚ
  current_lng : ℚ
  destination_lat : ℚ
  destination_lng : ℚ
  speed_kmh : ℚ
  status : String
  current_route : Option TaxiRoute
  route_progress : ℚ
  current_zone : Option String := none
  previous_zone : Option String := none
  route_index : ℕ := 0
deriving DecidableEq, Repr

/-- Embeds the payload handed to `cosmos_service.store_trace_event` by
`_store_trace_event` (minus the wall-clock timestamp). -/
structure TraceEvent where
  vehicle_id : String
  zone_name : String
  event_type : String
  latitude : ℚ
  longitude : ℚ
deriving DecidableEq, Repr

/-- Python truthiness of an optional string: `None` and the empty string are
falsy, any other string is truthy (used by `if taxi.current_zone:` and
`if current_zone:` in `_check_zone_transitions`). -/
def truthy : Option String → Bool
  | none => false
  | some s => s != ""

/-! ## `USTaxiSimulation` position update -/

/-- Embeds `_interpolate_position`: linear interpolation between start and end
based on progress; returns `(lat, lng)`. -/
def interpolate_position (startLat startLng endLat endLng progress : ℚ) : ℚ × ℚ :=
  (startLat + (endLat - startLat) * progress,
   startLng + (endLng - startLng) * progress)

/-- The progress increment computed by `_update_taxi_position`:
`distance_per_second = speed_kmh / 3600`, `distance_to_move = dps * dt`,
`progress_increment = distance_to_move / total_distance if total_distance > 0 else 0`. -/
def progressIncrement (t : TaxiState) (route : TaxiRoute) (timeDelta : ℚ) : ℚ :=
  let distancePerSecond := t.speed_kmh / 3600
  let distanceToMove := distancePerSecond * timeDelta
  if route.distance_km > 0 then distanceToMove / route.distance_km else 0

/-- Embeds `_complete_current_route`.  The mutations are applied in source
order: `route_progress = 0.0`, `route_index += 1`, then either advance to
`routes[route_index]` or (past the end) restart with `route_index = 0` and
`routes[0]`.  The speed redraw `random.uniform(600, 1200)` is the oracle
`newSpeed`.  The final `none` branch is unreachable in the program: Python
would raise `IndexError` on `routes[0]` there, and taxis are created only for
nonempty route lists. -/
def completeCurrentRoute (routes : List TaxiRoute) (t : TaxiState) (newSpeed : ℚ) : TaxiState :=
  let t := { t with route_progress := 0, route_index := t.route_index + 1 }
  match routes[t.route_index]? with
  | some next =>
    { t with current_route := some next,
             current_lat := next.pickup.latitude, current_lng := next.pickup.longitude,
             destination_lat := next.dropoff.latitude, destination_lng := next.dropoff.longitude,
             status := "pickup", speed_kmh := newSpeed }
  | none =>
    let t := { t with route_index := 0 }
    match routes[0]? with
    | some first =>
      { t with current_route := some first,
               current_lat := first.pickup.latitude, current_lng := first.pickup.longitude,
               destination_lat := first.dropoff.latitude, destination_lng := first.dropoff.longitude,
               status := "pickup", speed_kmh := newSpeed }
    | none => t

/-- Embeds `_update_taxi_position`: on `current_route is None` return
unchanged; otherwise clamp the progress to `min(1.0, ...)`, interpolate the
position (from the route's pickup to its dropoff when `status == 'pickup'`,
else from the current position to the destination), and if progress reached
`1.0` complete the route in the same call. -/
def updateTaxiPosition (routes : List TaxiRoute) (t : TaxiState) (timeDelta newSpeed : ℚ) :
    TaxiState :=
  match t.current_route with
  | none => t
  | some route =>
    let progress := min 1 (t.route_progress + progressIncrement t route timeDelta)
    let (startLat, startLng, endLat, endLng) :=
      if t.status = "pickup" then
        (route.pickup.latitude, route.pickup.longitude,
         route.dropoff.latitude, route.dropoff.longitude)
      else
        (t.current_lat, t.current_lng, t.destination_lat, t.destination_lng)
    let pos := interpolate_position startLat startLng endLat endLng progress
    let t' := { t with route_progress := progress, current_lat := pos.1, current_lng := pos.2 }
    if progress ≥ 1 then completeCurrentRoute routes t' newSpeed else t'

/-! ## `USTaxiSimulation` zone transitions -/

/-- The trace event `_store_trace_event` hands to the sink for the given taxi:
the taxi's id, the zone, the event type, and the taxi's current position. -/
def mkTraceEvent (t : TaxiState) (eventType zoneName : String) : TraceEvent :=
  { vehicle_id := t.taxi_id, zone_name := zoneName, event_type := eventType,
    latitude := t.current_lat, longitude := t.current_lng }

/-- Embeds `_check_zone_transitions` (state change and emitted trace events):
reclassify the current position; if the classification equals the remembered
`current_zone`, nothing happens; otherwise emit an `exit` event for the old
zone when truthy, then an `entry` event for the new one when truthy, and set
`previous_zone`/`current_zone`. -/
def checkZoneTransitions (classify : ℚ → ℚ → Option String) (t : TaxiState) :
    TaxiState × List TraceEvent :=
  let currentZone := classify t.current_lng t.current_lat
  if currentZone = t.current_zone then (t, [])
  else
    let exitEvents := if truthy t.current_zone then [mkTraceEvent t "exit" (t.current_zone.getD "")] else []
    let entryEvents := if truthy currentZone then [mkTraceEvent t "entry" (currentZone.getD "")] else []
    ({ t with previous_zone := t.current_zone, current_zone := currentZone },
     exitEvents ++ entryEvents)

/-- Embeds `_store_trace_event`'s `try/except`: the sink outcome is an oracle;
a sink exception is caught (and logged), so the call always returns normally. -/
def storeTraceEvent (sink : TraceEvent → Except String Unit) (e : TraceEvent) :
    Except String Unit :=
  match sink e with
  | .ok _ => .ok ()
  | .error _ => .ok ()

/-- Embeds `_check_zone_transitions` together with its calls to
`_store_trace_event`, in an error monad so that a propagating sink exception
would surface as `.error`. -/
def checkZoneTransitionsWithSink (classify : ℚ → ℚ → Option String)
    (sink : TraceEvent → Except String Unit) (t : TaxiState) :
    Except String (TaxiState × List TraceEvent) := do
  let currentZone := classify t.current_lng t.current_lat
  if currentZone = t.current_zone then
    return (t, [])
  else
    let exitEvents ←
      if truthy t.current_zone then do
        let e := mkTraceEvent t "exit" (t.current_zone.getD "")
        let _ ← storeTraceEvent sink e
        pure [e]
      else pure []
    let entryEvents ←
      if truthy currentZone then do
        let e := mkTraceEvent t "entry" (currentZone.getD "")
        let _ ← storeTraceEvent sink e
        pure [e]
      else pure []
    return ({ t with previous_zone := t.current_zone, current_zone := currentZone },
            exitEvents ++ entryEvents)

/-! ## The per-taxi body of `_simulation_loop` -/

/-- One tick of `_simulation_loop` for a single taxi: `_update_taxi_position`
followed by `_check_zone_transitions` (`_send_location_update` is a no-op).
Returns the updated taxi together with the trace events emitted. -/
def simTick (routes : List TaxiRoute) (classify : ℚ → ℚ → Option String)
    (t : TaxiState) (timeDelta newSpeed : ℚ) : TaxiState × List TraceEvent :=
  checkZoneTransitions classify (updateTaxiPosition routes t timeDelta newSpeed)

/-- The state component of `simTick`. -/
def tickState (routes : List TaxiRoute) (classify : ℚ → ℚ → Option String)
    (t : TaxiState) (timeDelta newSpeed : ℚ) : TaxiState :=
  (simTick routes classify t timeDelta newSpeed).1

/-- A sequence of ticks, each with its own elapsed time and speed-draw oracle. -/
def runTicks (routes : List TaxiRoute) (classify : ℚ → ℚ → Option String) :
    TaxiState → List (ℚ × ℚ) → TaxiState
  | t, [] => t
  | t, x :: xs => runTicks routes classify (tickState routes classify t x.1 x.2) xs

/-- A sequence of consecutive route completions, each with its own speed-draw
oracle. -/
def runCompletions (routes : List TaxiRoute) : TaxiState → List ℚ → TaxiState
  | t, [] => t
  | t, ns :: rest => runCompletions routes (completeCurrentRoute routes t ns) rest

/-! ## `search_taxis_by_zone` -/

/-- Python `str.lower()` on the character list of a string (the zone names and
queries involved are ASCII, where `Char.toLower` agrees with Python). -/
def lowerStr (s : String) : List Char :=
  s.data.map Char.toLower

/-- Python's substring test `needle in hay` on character lists. -/
def strContains : List Char → List Char → Bool
  | [], needle => needle == []
  | hay@(_ :: tl), needle => needle.isPrefixOf hay || strContains tl needle

/-- Embeds `search_taxis_by_zone` over the collection of taxis:
`if taxi.current_zone and zone_name.lower() in taxi.current_zone.lower()`.
`get_taxi_status` repackages the taxi's fields one-for-one into a dict, so the
returned statuses are modelled by the taxi states themselves. -/
def searchTaxisByZone (taxis : List TaxiState) (zoneName : String) : List TaxiState :=
  taxis.filter fun t =>
    match t.current_zone with
    | none => false
    | some z => z != "" && strContains (lowerStr z) (lowerStr zoneName)

/-! ## Concrete fixtures: taxi_a of the route table -/

/-- First route of `taxi_a` in `self.taxi_routes`: Rhode Island → Massachusetts. -/
def taxiARoute1 : TaxiRoute :=
  { pickup := { state_name := "Rhode Island", state_abbr := "RI",
                latitude := 41.580095, longitude := -71.477429 },
    dropoff := { state_name := "Massachusetts", state_abbr := "MA",
                 latitude := 42.407211, longitude := -71.382437 },
    distance_km := 92.31 }

/-- Second route of `taxi_a`: Alabama → US Virgin Islands. -/
def taxiARoute2 : TaxiRoute :=
  { pickup := { state_name := "Alabama", state_abbr := "AL",
                latitude := 32.318231, longitude := -86.902298 },
    dropoff := { state_name := "US Virgin Islands", state_abbr := "VI",
                 latitude := 34.297878, longitude := -83.824066 },
    distance_km := 360.92 }

/-- The five routes assigned to `taxi_a` in `self.taxi_routes`. -/
def taxiARoutes : List TaxiRoute :=
  [ taxiARoute1,
    taxiARoute2,
    { pickup := { state_name := "Kentucky", state_abbr := "KY",
                  latitude := 37.839333, longitude := -84.270018 },
      dropoff := { state_name := "Ohio", state_abbr := "OH",
                   latitude := 40.417287, longitude := -82.907123 },
      distance_km := 309.81 },
    { pickup := { state_name := "Illinois", state_abbr := "IL",
                  latitude := 40.633125, longitude := -89.398528 },
      dropoff := { state_name := "Indiana", state_abbr := "IN",
                   latitude := 40.551217, longitude := -85.602364 },
      distance_km := 320.64 },
    { pickup := { state_name := "Vermont", state_abbr := "VT",
                  latitude := 44.558803, longitude := -72.577841 },
      dropoff := { state_name := "New Hampshire", state_abbr := "NH",
                   latitude := 43.193852, longitude := -71.572395 },
      distance_km := 171.84 } ]

/-- The taxi `taxi_a` as `_initialize_taxis` creates it, with the `random.uniform`
speed draw as oracle: placed at the first route's pickup, aimed at its
dropoff, `status='pickup'`, progress 0, index 0, and the initial zone
classified from the starting position. -/
def taxiAInit (speed : ℚ) : TaxiState :=
  let t : TaxiState :=
    { taxi_id := "taxi_a",
      current_lat := taxiARoute1.pickup.latitude,
      current_lng := taxiARoute1.pickup.longitude,
      destination_lat := taxiARoute1.dropoff.latitude,
      destination_lng := taxiARoute1.dropoff.longitude,
      speed_kmh := speed, status := "pickup",
      current_route := some taxiARoute1, route_progress := 0, route_index := 0 }
  { t with current_zone := classify_point_fallback t.current_lng t.current_lat }

/-- A taxi whose `current_route` is `None` (the guard clause of
`_update_taxi_position`); the remaining fields are arbitrary concrete values. -/
def idleTaxi : TaxiState :=
  { taxi_id := "taxi_x", current_lat := 1, current_lng := 2,
    destination_lat := 3, destination_lng := 4, speed_kmh := 700,
    status := "idle", current_route := none, route_progress := 1/2,
    current_zone := some "Alabama", previous_zone := some "Georgia", route_index := 3 }

/-- A route whose pickup and dropoff coincide and whose `distance_km` is `0`
(exercises the `total_distance > 0` guard of `_update_taxi_position`). -/
def zeroRoute : TaxiRoute :=
  { pickup := { state_name := "Alabama", state_abbr := "AL",
                latitude := 32.318231, longitude := -86.902298 },
    dropoff := { state_name := "Alabama", state_abbr := "AL",
                 latitude := 32.318231, longitude := -86.902298 },
    distance_km := 0 }

/-- A two-route table whose first route is the zero-distance route. -/
def zeroRoutes : List TaxiRoute :=
  [zeroRoute, taxiARoute2]

/-- A taxi positioned on the zero-distance route with progress 0. -/
def zeroRouteTaxi : TaxiState :=
  { taxi_id := "taxi_z",
    current_lat := zeroRoute.pickup.latitude, current_lng := zeroRoute.pickup.longitude,
    destination_lat := zeroRoute.dropoff.latitude, destination_lng := zeroRoute.dropoff.longitude,
    speed_kmh := 900, status := "pickup", current_route := some zeroRoute,
    route_progress := 0, current_zone := some "Alabama", route_index := 0 }

/-- A taxi whose `current_zone` is the empty string (non-null but falsy in
Python). -/
def emptyZoneTaxi : TaxiState :=
  { taxi_id := "taxi_e", current_lat := 0, current_lng := 0,
    destination_lat := 0, destination_lng := 0, speed_kmh := 700,
    status := "pickup", current_route := none, route_progress := 0,
    current_zone := some "", route_index := 0 }

/-- Well-formedness of a simulated taxi, as established by
`_initialize_taxis` and maintained by the loop: a valid route index, a
current route, progress within `[0, 1]` and a nonnegative speed. -/
def WellFormedTaxi (routes : List TaxiRoute) (t : TaxiState) : Prop :=
  t.route_index < routes.length ∧ t.current_route.isSome ∧
  0 ≤ t.route_progress ∧ t.route_progress ≤ 1 ∧ 0 ≤ t.speed_kmh

/-! ## Characterization of the classifier fold -/

/-- Shorthand for the minimum squared centroid distance over a zone list, as
tracked by `min_distance` (with `⊤` playing `float('inf')`). -/
def minDist2 (lng lat : ℚ) (zs : List StateZone) : WithTop ℚ :=
  (zs.map (d2 lng lat)).minimum

theorem minDist2_nil (lng lat : ℚ) : minDist2 lng lat [] = ⊤ := rfl

theorem minDist2_cons (lng lat : ℚ) (z : StateZone) (r : List StateZone) :
    minDist2 lng lat (z :: r) = min ((d2 lng lat z : ℚ) : WithTop ℚ) (minDist2 lng lat r) := by
  simp [minDist2, List.minimum_cons]

/-- The first component of the fold state is the minimum of the initial value
and all squared distances seen so far. -/
theorem classifyFold_fst (lng lat : ℚ) :
    ∀ (zs : List StateZone) (m : WithTop ℚ) (c : Option String),
      (classifyFold lng lat zs (m, c)).1 = min m (minDist2 lng lat zs)
  | [], m, c => by
    simp [classifyFold, minDist2_nil, min_eq_left le_top]
  | z :: r, m, c => by
    rw [minDist2_cons]
    by_cases h : ((d2 lng lat z : ℚ) : WithTop ℚ) < m
    · rw [classifyFold, if_pos h, classifyFold_fst lng lat r]
      rw [← min_assoc, min_eq_right h.le]
    · rw [classifyFold, if_neg h, classifyFold_fst lng lat r]
      rw [← min_assoc, min_eq_left (not_lt.mp h)]

/-- If no zone in the list strictly beats the running minimum, the fold state
is unchanged. -/
theorem classifyFold_frozen (lng lat : ℚ) :
    ∀ (zs : List StateZone) (m : WithTop ℚ) (c : Option String),
      ¬ minDist2 lng lat zs < m → classifyFold lng lat zs (m, c) = (m, c)
  | [], m, c, _ => rfl
  | z :: r, m, c, h => by
    rw [minDist2_cons, min_lt_iff] at h
    push_neg at h
    rw [classifyFold, if_neg (not_lt.mpr h.1), classifyFold_frozen lng lat r m c (not_lt.mpr h.2)]

/-- If some zone in the list strictly beats the running minimum, the fold's
`closest_state` ends up naming the first zone (in list order) whose squared
distance equals the minimum over the list. -/
theorem classifyFold_snd (lng lat : ℚ) :
    ∀ (zs : List StateZone) (m : WithTop ℚ) (c : Option String),
      minDist2 lng lat zs < m →
      (classifyFold lng lat zs (m, c)).2 =
        (zs.find? fun z => decide (((d2 lng lat z : ℚ) : WithTop ℚ) = minDist2 lng lat zs)).map
          StateZone.name
  | [], m, c, h => absurd h (by simp [minDist2_nil])
  | z :: r, m, c, h => by
    have hmin := minDist2_cons lng lat z r
    by_cases hz : ((d2 lng lat z : ℚ) : WithTop ℚ) < m
    · rw [classifyFold, if_pos hz]
      by_cases hr : minDist2 lng lat r < ((d2 lng lat z : ℚ) : WithTop ℚ)
      · -- a later zone is strictly closer: the head is not a minimizer
        have hM : minDist2 lng lat (z :: r) = minDist2 lng lat r := by
          rw [hmin, min_eq_right hr.le]
        rw [hM, List.find?_cons_of_neg, classifyFold_snd lng lat r _ _ hr]
        simp only [decide_eq_true_eq]
        exact fun he => absurd (he ▸ hr) (lt_irrefl _)
      · -- the head attains the minimum: it is found first and the fold freezes
        have hM : minDist2 lng lat (z :: r) = ((d2 lng lat z : ℚ) : WithTop ℚ) := by
          rw [hmin, min_eq_left (not_lt.mp hr)]
        rw [hM, List.find?_cons_of_pos _ (by simp), classifyFold_frozen lng lat r _ _ hr]
        rfl
    · -- head not below the running minimum, but something in the list is
      have hzr : minDist2 lng lat r < m := by
        rw [hmin] at h
        rcases min_lt_iff.mp h with h' | h'
        · exact absurd h' hz
        · exact h'
      have hrz : minDist2 lng lat r < ((d2 lng lat z : ℚ) : WithTop ℚ) :=
        lt_of_lt_of_le hzr (not_lt.mp hz)
      have hM : minDist2 lng lat (z :: r) = minDist2 lng lat r := by
        rw [hmin, min_eq_right hrz.le]
      rw [classifyFold, if_neg hz, hM, List.find?_cons_of_neg, classifyFold_snd lng lat r _ _ hzr]
      simp only [decide_eq_true_eq]
      exact fun he => absurd (he ▸ hrz) (lt_irrefl _)

/-- Closed form of `_classify_point_fallback`: below the threshold it returns
the name of the first zone (in `state_zones.values()` order) attaining the
minimum squared distance, otherwise `None`. -/
theorem classify_point_fallback_eq (lng lat : ℚ) :
    classify_point_fallback lng lat =
      if minDist2 lng lat stateZonesValues < ((4 : ℚ) : WithTop ℚ) then
        (stateZonesValues.find? fun z =>
          decide (((d2 lng lat z : ℚ) : WithTop ℚ) = minDist2 lng lat stateZonesValues)).map
          StateZone.name
      else none := by
  have hfst : (classifyFold lng lat stateZonesValues (⊤, none)).1 =
      minDist2 lng lat stateZonesValues := by
    rw [classifyFold_fst]
    exact min_eq_right le_top
  simp only [classify_point_fallback]
  rw [hfst]
  by_cases h : minDist2 lng lat stateZonesValues < ((4 : ℚ) : WithTop ℚ)
  · rw [if_pos h, if_pos h, classifyFold_snd lng lat stateZonesValues ⊤ none (h.trans_le le_top)]
  · rw [if_neg h, if_neg h]

/-- When the minimum distance is attained and below the threshold, the
classifier returns some minimizing zone's name. -/
theorem classify_point_fallback_of_lt (lng lat : ℚ)
    (h : minDist2 lng lat stateZonesValues < ((4 : ℚ) : WithTop ℚ)) :
    ∃ z ∈ stateZonesValues,
      ((d2 lng lat z : ℚ) : WithTop ℚ) = minDist2 lng lat stateZonesValues ∧
      classify_point_fallback lng lat = some z.name := by
  obtain ⟨q, hq, -⟩ := WithTop.lt_iff_exists_coe.mp (h.trans_le le_top)
  have hqmem : q ∈ stateZonesValues.map (d2 lng lat) := List.minimum_mem hq
  obtain ⟨z0, hz0, hz0q⟩ := List.mem_map.mp hqmem
  have hfind : (stateZonesValues.find? fun z =>
      decide (((d2 lng lat z : ℚ) : WithTop ℚ) = minDist2 lng lat stateZonesValues)).isSome := by
    rw [List.find?_isSome]
    exact ⟨z0, hz0, by simp only [decide_eq_true_eq, hz0q]; exact hq.symm⟩
  obtain ⟨w, hw⟩ := Option.isSome_iff_exists.mp hfind
  refine ⟨w, List.mem_of_find?_eq_some hw, ?_, ?_⟩
  · have := List.find?_some hw
    simpa using this
  · rw [classify_point_fallback_eq, if_pos h, hw]
    rfl

/-- C4: for every point, the fallback classifier returns the minimum-distance
region's label if and only if the minimum distance is strictly below the
2.0-degree threshold (squared: `4.0`), and otherwise returns nothing; a point
exactly at a region's centroid classifies to that region, and a point at
distance at least 2.0 from every centroid classifies to nothing. -/
theorem fallback_classifier_nearest_centroid (lng lat : ℚ) :
    (minDist2 lng lat stateZonesValues < ((4 : ℚ) : WithTop ℚ) →
      ∃ z ∈ stateZonesValues,
        ((d2 lng lat z : ℚ) : WithTop ℚ) = minDist2 lng lat stateZonesValues ∧
        classify_point_fallback lng lat = some z.name)
    ∧ (classify_point_fallback lng lat = none ↔
        ¬ minDist2 lng lat stateZonesValues < ((4 : ℚ) : WithTop ℚ))
    ∧ (∀ z ∈ fallbackStates, classify_point_fallback z.center_lng z.center_lat = some z.name)
    ∧ (∀ lng' lat' : ℚ, (∀ z ∈ stateZonesValues, (4 : ℚ) ≤ d2 lng' lat' z) →
        classify_point_fallback lng' lat' = none) := by
  have hnone : ∀ lng' lat' : ℚ, ¬ minDist2 lng' lat' stateZonesValues < ((4 : ℚ) : WithTop ℚ) →
      classify_point_fallback lng' lat' = none := by
    intro lng' lat' h
    rw [classify_point_fallback_eq, if_neg h]
  refine ⟨classify_point_fallback_of_lt lng lat, ⟨?_, hnone lng lat⟩, by decide, ?_⟩
  · intro hcls
    by_contra h
    obtain ⟨z, -, -, hz⟩ := classify_point_fallback_of_lt lng lat h
    rw [hcls] at hz
    exact Option.noConfusion hz
  · intro lng' lat' hfar
    refine hnone lng' lat' fun hlt => ?_
    obtain ⟨q, hq, hq4⟩ := WithTop.lt_iff_exists_coe.mp hlt
    obtain ⟨z, hz, hzq⟩ := List.mem_map.mp (List.minimum_mem hq)
    have : (4 : ℚ) ≤ q := hzq ▸ hfar z hz
    exact absurd (WithTop.coe_lt_coe.mp hq4) (not_lt.mpr this)

/-- Witness for C4: the point `(0, 0)` is at least 2 degrees from every
centroid and classifies to nothing. -/
theorem fallback_classifier_nearest_centroid_witness :
    classify_point_fallback 0 0 = none :=
  (fallback_classifier_nearest_centroid 0 0).2.2.2 0 0 (by decide)

/-- C5 (amended): when the minimum fallback distance is below the threshold,
the classifier deterministically returns the name of the first zone, in the
reference set's declared order, attaining that minimum — in particular under a
tie between two distinct regions at the minimum.  (As stated the claim fails
when the tied minimum is at or beyond the threshold: see the counterexample.) -/
theorem fallback_classifier_tie_deterministic (lng lat : ℚ) (z₁ z₂ : StateZone)
    (h₁ : z₁ ∈ stateZonesValues) (h₂ : z₂ ∈ stateZonesValues) (hne : z₁ ≠ z₂)
    (hd₁ : ((d2 lng lat z₁ : ℚ) : WithTop ℚ) = minDist2 lng lat stateZonesValues)
    (hd₂ : ((d2 lng lat z₂ : ℚ) : WithTop ℚ) = minDist2 lng lat stateZonesValues)
    (hthr : minDist2 lng lat stateZonesValues < ((4 : ℚ) : WithTop ℚ)) :
    ∃ w : StateZone,
      (stateZonesValues.find? fun z =>
        decide (((d2 lng lat z : ℚ) : WithTop ℚ) = minDist2 lng lat stateZonesValues)) = some w ∧
      classify_point_fallback lng lat = some w.name := by
  obtain ⟨z0, hz0, hz0d, -⟩ := classify_point_fallback_of_lt lng lat hthr
  have hfind : (stateZonesValues.find? fun z =>
      decide (((d2 lng lat z : ℚ) : WithTop ℚ) = minDist2 lng lat stateZonesValues)).isSome := by
    rw [List.find?_isSome]
    exact ⟨z0, hz0, by simp only [decide_eq_true_eq]; exact hz0d⟩
  obtain ⟨w, hw⟩ := Option.isSome_iff_exists.mp hfind
  refine ⟨w, hw, ?_⟩
  rw [classify_point_fallback_eq, if_pos hthr, hw]
  rfl

/-- Witness for C5: the exact midpoint of the Connecticut and Rhode Island
centroids is tied at the minimum between those two regions, below the
threshold, and classifies to the first of them in declared order
(Connecticut). -/
theorem fallback_classifier_tie_deterministic_witness :
    ∃ w : StateZone,
      (stateZonesValues.find? fun z =>
        decide (((d2 (-72282589/1000000) (20795829/500000) z : ℚ) : WithTop ℚ) =
          minDist2 (-72282589/1000000) (20795829/500000) stateZonesValues)) = some w ∧
      classify_point_fallback (-72282589/1000000) (20795829/500000) = some w.name :=
  fallback_classifier_tie_deterministic (-72282589/1000000) (20795829/500000)
    (mkStateZone "ct" "Connecticut" "CT" 41.603221 (-73.087749))
    (mkStateZone "ri" "Rhode Island" "RI" 41.580095 (-71.477429))
    (by decide) (by decide) (by decide) (by decide) (by decide) (by decide)

/-- Counterexample to C5 as stated: the point
`(lng, lat) = (-170, 7672019652811/182041962500)` is exactly equidistant, at
the minimum distance, from the Alaska and Hawaii centroids, yet the classifier
returns nothing (the tied minimum is beyond the threshold), not the
first-in-order tied region. -/
theorem fallback_classifier_tie_counterexample :
    ((d2 (-170) (7672019652811/182041962500)
        (mkStateZone "ak" "Alaska" "AK" 63.588753 (-154.493062)) : ℚ) : WithTop ℚ) =
      minDist2 (-170) (7672019652811/182041962500) stateZonesValues
    ∧ ((d2 (-170) (7672019652811/182041962500)
        (mkStateZone "hi" "Hawaii" "HI" 19.898682 (-155.665857)) : ℚ) : WithTop ℚ) =
      minDist2 (-170) (7672019652811/182041962500) stateZonesValues
    ∧ (mkStateZone "ak" "Alaska" "AK" 63.588753 (-154.493062)) ∈ stateZonesValues
    ∧ (mkStateZone "hi" "Hawaii" "HI" 19.898682 (-155.665857)) ∈ stateZonesValues
    ∧ (mkStateZone "ak" "Alaska" "AK" 63.588753 (-154.493062)) ≠
        (mkStateZone "hi" "Hawaii" "HI" 19.898682 (-155.665857))
    ∧ classify_point_fallback (-170) (7672019652811/182041962500) = none := by
  decide

/-- C2: for every entity and classifier result, if the new classification
equals the remembered zone the update is a no-op (no events, no state
change); if they differ it emits exactly one exit event for the old zone when
that is non-empty, then exactly one entry event for the new zone when that is
non-empty, in that order, and rolls the zones forward. -/
theorem zone_transition_update (classify : ℚ → ℚ → Option String) (t : TaxiState) :
    (classify t.current_lng t.current_lat = t.current_zone →
      checkZoneTransitions classify t = (t, []))
    ∧ (classify t.current_lng t.current_lat ≠ t.current_zone →
      checkZoneTransitions classify t =
        ({ t with previous_zone := t.current_zone,
                  current_zone := classify t.current_lng t.current_lat },
         (if truthy t.current_zone then
            [mkTraceEvent t "exit" (t.current_zone.getD "")] else [])
         ++ (if truthy (classify t.current_lng t.current_lat) then
            [mkTraceEvent t "entry" ((classify t.current_lng t.current_lat).getD "")] else []))) := by
  constructor
  · intro h
    simp [checkZoneTransitions, h]
  · intro h
    simp [checkZoneTransitions, h]

/-- Witness for C2: a classifier that maps taxi_a's start to Alabama while its
remembered zone is Rhode Island produces exactly one exit then one entry. -/
theorem zone_transition_update_witness :
    checkZoneTransitions (fun _ _ => some "Alabama") (taxiAInit 900) =
      ({ taxiAInit 900 with previous_zone := some "Rhode Island",
                            current_zone := some "Alabama" },
       [mkTraceEvent (taxiAInit 900) "exit" "Rhode Island",
        mkTraceEvent (taxiAInit 900) "entry" "Alabama"]) :=
  ((zone_transition_update (fun _ _ => some "Alabama") (taxiAInit 900)).2 (by decide)).trans
    (by decide)

/-- The `try/except` wrapper of `_store_trace_event` returns normally whatever
the sink does. -/
theorem storeTraceEvent_ok (sink : TraceEvent → Except String Unit) (e : TraceEvent) :
    storeTraceEvent sink e = Except.ok () := by
  unfold storeTraceEvent
  cases sink e <;> rfl

/-- C8: for every classifier, sink behaviour and entity, the tracker update
with the sink attached returns normally and equals the pure tracker update
(so the in-memory state transition is completed identically whether the sink
succeeds or raises); on a transition, `previous_zone` is set to the old region
and `current_zone` to the new classification. -/
theorem sink_failure_atomicity (classify : ℚ → ℚ → Option String)
    (sink : TraceEvent → Except String Unit) (t : TaxiState) :
    checkZoneTransitionsWithSink classify sink t = Except.ok (checkZoneTransitions classify t)
    ∧ (classify t.current_lng t.current_lat ≠ t.current_zone →
        (checkZoneTransitions classify t).1.previous_zone = t.current_zone ∧
        (checkZoneTransitions classify t).1.current_zone =
          classify t.current_lng t.current_lat) := by
  constructor
  · by_cases h : classify t.current_lng t.current_lat = t.current_zone
    · simp [checkZoneTransitionsWithSink, checkZoneTransitions, h]
      rfl
    · cases hex : truthy t.current_zone <;>
        cases hen : truthy (classify t.current_lng t.current_lat) <;>
        simp [checkZoneTransitionsWithSink, checkZoneTransitions, h, hex, hen,
          storeTraceEvent_ok, Bind.bind, Except.bind] <;>
        rfl
  · intro h
    simp [checkZoneTransitions, h]

/-- Witness for C8: with an always-failing sink, a transition from Rhode
Island to Alabama still returns normally with the zones rolled forward. -/
theorem sink_failure_atomicity_witness :
    checkZoneTransitionsWithSink (fun _ _ => some "Alabama")
        (fun _ => Except.error "cosmos down") (taxiAInit 900) =
      Except.ok (checkZoneTransitions (fun _ _ => some "Alabama") (taxiAInit 900))
    ∧ (checkZoneTransitions (fun _ _ => some "Alabama") (taxiAInit 900)).1.previous_zone =
        some "Rhode Island"
    ∧ (checkZoneTransitions (fun _ _ => some "Alabama") (taxiAInit 900)).1.current_zone =
        some "Alabama" := by
  have h := sink_failure_atomicity (fun _ _ => some "Alabama")
    (fun _ => Except.error "cosmos down") (taxiAInit 900)
  refine ⟨h.1, ?_, ?_⟩
  · exact (h.2 (by decide)).1.trans (by decide)
  · exact (h.2 (by decide)).2

/-- C9: for every entity whose `current_route` is `None`, the position update
returns immediately and leaves the entity completely unchanged. -/
theorem position_update_noop_without_route (routes : List TaxiRoute) (t : TaxiState)
    (timeDelta newSpeed : ℚ) (h : t.current_route = none) :
    updateTaxiPosition routes t timeDelta newSpeed = t := by
  unfold updateTaxiPosition
  rw [h]

/-- Witness for C9: a concrete route-less taxi is untouched by a tick. -/
theorem position_update_noop_without_route_witness :
    updateTaxiPosition taxiARoutes idleTaxi 100 800 = idleTaxi :=
  position_update_noop_without_route taxiARoutes idleTaxi 100 800 (by decide)

/-! ## Helper lemmas for the position simulator -/

/-- The transition check `_check_zone_transitions` only ever writes the two
zone fields. -/
theorem checkZoneTransitions_state (classify : ℚ → ℚ → Option String) (t : TaxiState) :
    ∃ cz pz, (checkZoneTransitions classify t).1 =
      { t with current_zone := cz, previous_zone := pz } := by
  by_cases h : classify t.current_lng t.current_lat = t.current_zone
  · exact ⟨t.current_zone, t.previous_zone, by simp [checkZoneTransitions, h]⟩
  · exact ⟨classify t.current_lng t.current_lat, t.current_zone,
      by simp [checkZoneTransitions, h]⟩

/-- Closed form of `_update_taxi_position` when a route is present. -/
theorem updateTaxiPosition_eq (routes : List TaxiRoute) (t : TaxiState)
    (timeDelta newSpeed : ℚ) (r : TaxiRoute) (hr : t.current_route = some r) :
    updateTaxiPosition routes t timeDelta newSpeed =
      (let p1 := min 1 (t.route_progress + progressIncrement t r timeDelta)
       let pos := if t.status = "pickup" then
           interpolate_position r.pickup.latitude r.pickup.longitude
             r.dropoff.latitude r.dropoff.longitude p1
         else
           interpolate_position t.current_lat t.current_lng
             t.destination_lat t.destination_lng p1
       let t' := { t with route_progress := p1, current_lat := pos.1, current_lng := pos.2 }
       if p1 ≥ 1 then completeCurrentRoute routes t' newSpeed else t') := by
  simp only [updateTaxiPosition, hr]
  by_cases hst : t.status = "pickup" <;> simp [hst]

/-- When the clamped progress stays below 1, `_update_taxi_position` changes
only the progress and the position. -/
theorem updateTaxiPosition_not_complete (routes : List TaxiRoute) (t : TaxiState)
    (timeDelta newSpeed : ℚ) (r : TaxiRoute) (hr : t.current_route = some r)
    (h : min 1 (t.route_progress + progressIncrement t r timeDelta) < 1) :
    (updateTaxiPosition routes t timeDelta newSpeed).route_progress =
      min 1 (t.route_progress + progressIncrement t r timeDelta)
    ∧ (updateTaxiPosition routes t timeDelta newSpeed).route_index = t.route_index
    ∧ (updateTaxiPosition routes t timeDelta newSpeed).current_route = t.current_route
    ∧ (updateTaxiPosition routes t timeDelta newSpeed).speed_kmh = t.speed_kmh
    ∧ (updateTaxiPosition routes t timeDelta newSpeed).current_zone = t.current_zone
    ∧ (updateTaxiPosition routes t timeDelta newSpeed).status = t.status := by
  rw [updateTaxiPosition_eq routes t timeDelta newSpeed r hr]
  simp only [if_neg (not_le.mpr h)]
  simp [hr]

/-- When the clamped progress reaches 1, `_update_taxi_position` hands an
intermediate state with the same index, id, status, speed and zone memory to
`_complete_current_route`. -/
theorem updateTaxiPosition_complete (routes : List TaxiRoute) (t : TaxiState)
    (timeDelta newSpeed : ℚ) (r : TaxiRoute) (hr : t.current_route = some r)
    (h : 1 ≤ min 1 (t.route_progress + progressIncrement t r timeDelta)) :
    ∃ t', updateTaxiPosition routes t timeDelta newSpeed =
        completeCurrentRoute routes t' newSpeed
      ∧ t'.route_index = t.route_index ∧ t'.taxi_id = t.taxi_id
      ∧ t'.current_zone = t.current_zone ∧ t'.previous_zone = t.previous_zone := by
  rw [updateTaxiPosition_eq routes t timeDelta newSpeed r hr]
  simp only [if_pos h]
  exact ⟨_, rfl, rfl, rfl, rfl, rfl⟩

/-- What `_complete_current_route` does to a taxi with a valid route index:
progress resets to 0, the index advances by one modulo the route count, the
taxi teleports to the next route's pickup, aims at its dropoff, returns to
`pickup` status and takes the oracle speed; the zone memory and id are
untouched. -/
theorem completeCurrentRoute_spec (routes : List TaxiRoute) (t : TaxiState) (newSpeed : ℚ)
    (hidx : t.route_index < routes.length) :
    (completeCurrentRoute routes t newSpeed).route_progress = 0
    ∧ (completeCurrentRoute routes t newSpeed).route_index =
        (t.route_index + 1) % routes.length
    ∧ (completeCurrentRoute routes t newSpeed).speed_kmh = newSpeed
    ∧ (completeCurrentRoute routes t newSpeed).status = "pickup"
    ∧ (completeCurrentRoute routes t newSpeed).current_zone = t.current_zone
    ∧ (completeCurrentRoute routes t newSpeed).previous_zone = t.previous_zone
    ∧ (completeCurrentRoute routes t newSpeed).taxi_id = t.taxi_id
    ∧ ∃ next, routes[(t.route_index + 1) % routes.length]? = some next ∧
        (completeCurrentRoute routes t newSpeed).current_route = some next ∧
        (completeCurrentRoute routes t newSpeed).current_lat = next.pickup.latitude ∧
        (completeCurrentRoute routes t newSpeed).current_lng = next.pickup.longitude ∧
        (completeCurrentRoute routes t newSpeed).destination_lat = next.dropoff.latitude ∧
        (completeCurrentRoute routes t newSpeed).destination_lng = next.dropoff.longitude := by
  have hpos : 0 < routes.length := Nat.lt_of_le_of_lt (Nat.zero_le _) hidx
  by_cases h : t.route_index + 1 < routes.length
  · have hmod : (t.route_index + 1) % routes.length = t.route_index + 1 :=
      Nat.mod_eq_of_lt h
    have hget : routes[t.route_index + 1]? = some routes[t.route_index + 1] :=
      List.getElem?_eq_getElem h
    simp [completeCurrentRoute, hget, hmod]
  · have heq : t.route_index + 1 = routes.length := Nat.le_antisymm hidx (Nat.not_lt.mp h)
    have hmod : (t.route_index + 1) % routes.length = 0 := by
      rw [heq, Nat.mod_self]
    have hget : routes[t.route_index + 1]? = none :=
      List.getElem?_eq_none (Nat.le_of_eq heq.symm)
    have hget0 : routes[0]? = some routes[0] := List.getElem?_eq_getElem hpos
    simp [completeCurrentRoute, hget, hget0, hmod]

/-- The progress increment is nonnegative for nonnegative speed and elapsed
time. -/
theorem progressIncrement_nonneg (t : TaxiState) (r : TaxiRoute) (timeDelta : ℚ)
    (hs : 0 ≤ t.speed_kmh) (hdt : 0 ≤ timeDelta) :
    0 ≤ progressIncrement t r timeDelta := by
  unfold progressIncrement
  by_cases h : r.distance_km > 0
  · simp only [h, if_true]
    exact div_nonneg (mul_nonneg (div_nonneg hs (by norm_num)) hdt) h.le
  · simp [h]

/-- One tick preserves taxi well-formedness. -/
theorem tickState_wf (routes : List TaxiRoute) (classify : ℚ → ℚ → Option String)
    (t : TaxiState) (timeDelta newSpeed : ℚ) (hwf : WellFormedTaxi routes t)
    (hdt : 0 ≤ timeDelta) (hns : 0 ≤ newSpeed) :
    WellFormedTaxi routes (tickState routes classify t timeDelta newSpeed) := by
  obtain ⟨hidx, hsome, hp0, hp1, hs⟩ := hwf
  obtain ⟨r, hr⟩ := Option.isSome_iff_exists.mp hsome
  have hinc := progressIncrement_nonneg t r timeDelta hs hdt
  set p1 := min 1 (t.route_progress + progressIncrement t r timeDelta) with hp1def
  have hp10 : 0 ≤ p1 := le_min (by norm_num) (add_nonneg hp0 hinc)
  have hp11 : p1 ≤ 1 := min_le_left _ _
  obtain ⟨cz, pz, hzone⟩ :=
    checkZoneTransitions_state classify (updateTaxiPosition routes t timeDelta newSpeed)
  have hts : tickState routes classify t timeDelta newSpeed =
      { updateTaxiPosition routes t timeDelta newSpeed with
          current_zone := cz, previous_zone := pz } := hzone
  rw [WellFormedTaxi, hts]
  rw [updateTaxiPosition_eq routes t timeDelta newSpeed r hr]
  by_cases hcomplete : p1 ≥ 1
  · simp only [← hp1def, if_pos hcomplete]
    obtain ⟨h0, hidx', hspeed, -, -, -, -, next, -, hroute', -⟩ :=
      completeCurrentRoute_spec routes
        { t with route_progress := p1,
                 current_lat := (if t.status = "pickup" then
                     interpolate_position r.pickup.latitude r.pickup.longitude
                       r.dropoff.latitude r.dropoff.longitude p1
                   else
                     interpolate_position t.current_lat t.current_lng
                       t.destination_lat t.destination_lng p1).1,
                 current_lng := (if t.status = "pickup" then
                     interpolate_position r.pickup.latitude r.pickup.longitude
                       r.dropoff.latitude r.dropoff.longitude p1
                   else
                     interpolate_position t.current_lat t.current_lng
                       t.destination_lat t.destination_lng p1).2 }
        newSpeed hidx
    refine ⟨?_, ?_, ?_, ?_, ?_⟩
    · simpa using hidx'.le.trans_lt (Nat.lt_of_le_of_lt (Nat.le_refl _)
        (Nat.mod_lt _ (Nat.lt_of_le_of_lt (Nat.zero_le _) hidx)))
    · simpa using Option.isSome_iff_exists.mpr ⟨next, hroute'⟩
    · simpa using le_of_eq h0.symm
    · simp [h0]
    · simpa [hspeed] using hns
  · simp only [← hp1def, if_neg hcomplete]
    exact ⟨hidx, by simpa using hsome, hp10, hp11, hs⟩

/-- A sequence of ticks with nonnegative elapsed times and nonnegative speed
draws preserves taxi well-formedness. -/
theorem runTicks_wf (routes : List TaxiRoute) (classify : ℚ → ℚ → Option String) :
    ∀ (inputs : List (ℚ × ℚ)) (t : TaxiState), WellFormedTaxi routes t →
      (∀ x ∈ inputs, 0 ≤ x.1 ∧ 0 ≤ x.2) →
      WellFormedTaxi routes (runTicks routes classify t inputs)
  | [], t, hwf, _ => hwf
  | x :: xs, t, hwf, hnn => by
    rw [runTicks]
    exact runTicks_wf routes classify xs _
      (tickState_wf routes classify t x.1 x.2 hwf (hnn x (by simp)).1 (hnn x (by simp)).2)
      (fun y hy => hnn y (by simp [hy]))

/-- C6: with nonnegative speed and nonnegative elapsed times, `route_progress`
stays in `[0, 1]` across any sequence of ticks; within a single tick, if the
clamped progress stays below 1 the progress does not decrease and the route
and index are unchanged, and exactly when it reaches 1.0 the progress resets
to 0 and `route_index` is incremented exactly once modulo the route count. -/
theorem routeProgress_invariant (routes : List TaxiRoute)
    (classify : ℚ → ℚ → Option String) (t : TaxiState) (hwf : WellFormedTaxi routes t) :
    (∀ inputs : List (ℚ × ℚ), (∀ x ∈ inputs, 0 ≤ x.1 ∧ 0 ≤ x.2) →
       0 ≤ (runTicks routes classify t inputs).route_progress ∧
       (runTicks routes classify t inputs).route_progress ≤ 1)
    ∧ (∀ timeDelta newSpeed : ℚ, 0 ≤ timeDelta → ∀ r, t.current_route = some r →
        (min 1 (t.route_progress + progressIncrement t r timeDelta) < 1 →
          (tickState routes classify t timeDelta newSpeed).route_progress =
            min 1 (t.route_progress + progressIncrement t r timeDelta) ∧
          t.route_progress ≤ (tickState routes classify t timeDelta newSpeed).route_progress ∧
          (tickState routes classify t timeDelta newSpeed).route_index = t.route_index ∧
          (tickState routes classify t timeDelta newSpeed).current_route = t.current_route)
        ∧ (min 1 (t.route_progress + progressIncrement t r timeDelta) = 1 →
          (tickState routes classify t timeDelta newSpeed).route_progress = 0 ∧
          (tickState routes classify t timeDelta newSpeed).route_index =
            (t.route_index + 1) % routes.length)) := by
  obtain ⟨hidx, hsome, hp0, hp1, hs⟩ := hwf
  constructor
  · intro inputs hnn
    have h := runTicks_wf routes classify inputs t ⟨hidx, hsome, hp0, hp1, hs⟩ hnn
    exact ⟨h.2.2.1, h.2.2.2.1⟩
  · intro timeDelta newSpeed hdt r hr
    have hinc := progressIncrement_nonneg t r timeDelta hs hdt
    obtain ⟨cz, pz, hzone⟩ :=
      checkZoneTransitions_state classify (updateTaxiPosition routes t timeDelta newSpeed)
    have hts : tickState routes classify t timeDelta newSpeed =
        { updateTaxiPosition routes t timeDelta newSpeed with
            current_zone := cz, previous_zone := pz } := hzone
    rw [hts]
    constructor
    · intro hlt
      obtain ⟨hprog, hidx0, hroute0, -⟩ :=
        updateTaxiPosition_not_complete routes t timeDelta newSpeed r hr hlt
      refine ⟨hprog, ?_, hidx0, hroute0⟩
      show t.route_progress ≤
        (updateTaxiPosition routes t timeDelta newSpeed).route_progress
      rw [hprog]
      exact le_min hp1 (le_add_of_nonneg_right hinc)
    · intro heq
      obtain ⟨t', hupd, hidx', -⟩ :=
        updateTaxiPosition_complete routes t timeDelta newSpeed r hr (le_of_eq heq.symm)
      have hidxlt : t'.route_index < routes.length := by rw [hidx']; exact hidx
      obtain ⟨h0, hmod, -⟩ := completeCurrentRoute_spec routes t' newSpeed hidxlt
      rw [hupd]
      constructor
      · exact h0
      · show (completeCurrentRoute routes t' newSpeed).route_index = _
        rw [hmod, hidx']

/-- Witness for C6: ticking taxi_a twice with small elapsed times keeps the
progress in `[0, 1]`, and a non-completing first tick leaves index and route
unchanged while not decreasing progress. -/
theorem routeProgress_invariant_witness :
    (0 ≤ (runTicks taxiARoutes classify_point_fallback (taxiAInit 900)
        [(10, 700), (20, 800)]).route_progress ∧
      (runTicks taxiARoutes classify_point_fallback (taxiAInit 900)
        [(10, 700), (20, 800)]).route_progress ≤ 1)
    ∧ (tickState taxiARoutes classify_point_fallback (taxiAInit 900) 10 700).route_index =
        (taxiAInit 900).route_index := by
  have h := routeProgress_invariant taxiARoutes classify_point_fallback (taxiAInit 900)
    ⟨by decide, by decide, by decide, by decide, by decide⟩
  refine ⟨h.1 [(10, 700), (20, 800)] (by norm_num), ?_⟩
  exact ((h.2 10 700 (by norm_num) taxiARoute1 (by decide)).1 (by decide)).2.2.1

/-- The effect of a block of consecutive completions on the route index and
current route. -/
theorem runCompletions_spec (routes : List TaxiRoute) :
    ∀ (nss : List ℚ) (t : TaxiState), t.route_index < routes.length →
      t.current_route = routes[t.route_index]? →
      (runCompletions routes t nss).route_index =
        (t.route_index + nss.length) % routes.length ∧
      (runCompletions routes t nss).current_route =
        routes[(t.route_index + nss.length) % routes.length]?
  | [], t, hidx, hroute => by
    simp [runCompletions, Nat.mod_eq_of_lt hidx, hroute]
  | ns :: rest, t, hidx, hroute => by
    have hpos : 0 < routes.length := Nat.lt_of_le_of_lt (Nat.zero_le _) hidx
    obtain ⟨-, hidx', -, -, -, -, -, next, hget, hroute', -⟩ :=
      completeCurrentRoute_spec routes t ns hidx
    have hidx'' : (completeCurrentRoute routes t ns).route_index < routes.length := by
      rw [hidx']; exact Nat.mod_lt _ hpos
    have hroute'' : (completeCurrentRoute routes t ns).current_route =
        routes[(completeCurrentRoute routes t ns).route_index]? := by
      rw [hidx', hroute', hget]
    have ih := runCompletions_spec routes rest (completeCurrentRoute routes t ns) hidx'' hroute''
    rw [runCompletions]
    rw [ih.1, ih.2, hidx', Nat.mod_add_mod]
    have hlen : t.route_index + 1 + rest.length = t.route_index + (ns :: rest).length := by
      simp only [List.length_cons]
      omega
    rw [hlen]
    exact ⟨rfl, rfl⟩

/-- C7: completing a route sets `route_index` to `(route_index + 1) mod N`,
resets `route_progress` to 0, teleports the position to the new route's pickup
coordinates and redraws the speed from the configured range (the
`random.uniform(600, 1200)` draw is the oracle `newSpeed`); after `N`
consecutive completions the entity is back on its original first route. -/
theorem route_completion_cycle (routes : List TaxiRoute) (t : TaxiState) (newSpeed : ℚ)
    (hidx : t.route_index < routes.length)
    (hroute : t.current_route = routes[t.route_index]?)
    (hns : 600 ≤ newSpeed ∧ newSpeed ≤ 1200) :
    ((completeCurrentRoute routes t newSpeed).route_index =
        (t.route_index + 1) % routes.length
     ∧ (completeCurrentRoute routes t newSpeed).route_progress = 0
     ∧ (completeCurrentRoute routes t newSpeed).speed_kmh = newSpeed
     ∧ 600 ≤ (completeCurrentRoute routes t newSpeed).speed_kmh
     ∧ (completeCurrentRoute routes t newSpeed).speed_kmh ≤ 1200
     ∧ ∃ next, routes[(t.route_index + 1) % routes.length]? = some next ∧
         (completeCurrentRoute routes t newSpeed).current_route = some next ∧
         (completeCurrentRoute routes t newSpeed).current_lat = next.pickup.latitude ∧
         (completeCurrentRoute routes t newSpeed).current_lng = next.pickup.longitude)
    ∧ (∀ nss : List ℚ, nss.length = routes.length →
        (runCompletions routes t nss).route_index = t.route_index ∧
        (runCompletions routes t nss).current_route = t.current_route) := by
  obtain ⟨h0, hidx', hspeed, -, -, -, -, next, hget, hroute', hlat, hlng, -⟩ :=
    completeCurrentRoute_spec routes t newSpeed hidx
  constructor
  · exact ⟨hidx', h0, hspeed, by rw [hspeed]; exact hns.1, by rw [hspeed]; exact hns.2,
      next, hget, hroute', hlat, hlng⟩
  · intro nss hlen
    obtain ⟨hindex, hroute''⟩ := runCompletions_spec routes nss t hidx hroute
    rw [hlen] at hindex hroute''
    rw [hindex, hroute'', Nat.add_mod_right, Nat.mod_eq_of_lt hidx]
    exact ⟨rfl, hroute.symm⟩

/-- Witness for C7: one completion moves taxi_a to its second route's pickup
with the oracle speed, and five completions (its route count) bring it back to
the first route. -/
theorem route_completion_cycle_witness :
    (completeCurrentRoute taxiARoutes (taxiAInit 900) 1000).route_index = 1
    ∧ (completeCurrentRoute taxiARoutes (taxiAInit 900) 1000).current_lat =
        taxiARoute2.pickup.latitude
    ∧ (runCompletions taxiARoutes (taxiAInit 900) [700, 800, 900, 1000, 1100]).route_index = 0
    ∧ (runCompletions taxiARoutes (taxiAInit 900) [700, 800, 900, 1000, 1100]).current_route =
        some taxiARoute1 := by
  have h := route_completion_cycle taxiARoutes (taxiAInit 900) 1000 (by decide) (by decide)
    ⟨by norm_num, by norm_num⟩
  obtain ⟨⟨hidx, -, -, -, -, next, hget, -, hlat, -⟩, hcycle⟩ := h
  have hc := hcycle [700, 800, 900, 1000, 1100] (by decide)
  refine ⟨hidx.trans (by decide), ?_, hc.1.trans (by decide), hc.2.trans (by decide)⟩
  have hnext : next = taxiARoute2 := by
    have h2 : taxiARoutes[((taxiAInit 900).route_index + 1) % taxiARoutes.length]? =
        some taxiARoute2 := by decide
    rw [h2] at hget
    exact (Option.some_inj.mp hget).symm
  rw [hlat, hnext]

/-- C3 (amended): for an entity on a zero-distance route, the position update
never divides by zero — the guard makes the progress increment 0 — so
`route_progress`, `route_index` and the current route are all unchanged: a
zero-distance route does not complete (instantly or ever) unless progress
already reached 1. -/
theorem zero_distance_route_stuck (routes : List TaxiRoute) (t : TaxiState)
    (timeDelta newSpeed : ℚ) (r : TaxiRoute) (hr : t.current_route = some r)
    (hd : r.distance_km = 0) (hp1 : t.route_progress < 1) :
    (updateTaxiPosition routes t timeDelta newSpeed).route_progress = t.route_progress
    ∧ (updateTaxiPosition routes t timeDelta newSpeed).route_index = t.route_index
    ∧ (updateTaxiPosition routes t timeDelta newSpeed).current_route = t.current_route := by
  have hinc : progressIncrement t r timeDelta = 0 := by
    simp [progressIncrement, hd]
  have hprog : min 1 (t.route_progress + progressIncrement t r timeDelta) = t.route_progress := by
    rw [hinc, add_zero]
    exact min_eq_right hp1.le
  rw [updateTaxiPosition_eq routes t timeDelta newSpeed r hr]
  simp only [hprog, if_neg (not_le.mpr hp1)]
  simp [hr]

/-- Witness for C3 (amended): the concrete zero-distance fixture stays put. -/
theorem zero_distance_route_stuck_witness :
    (updateTaxiPosition zeroRoutes zeroRouteTaxi 100 800).route_progress = 0
    ∧ (updateTaxiPosition zeroRoutes zeroRouteTaxi 100 800).route_index = 0
    ∧ (updateTaxiPosition zeroRoutes zeroRouteTaxi 100 800).current_route = some zeroRoute := by
  have h := zero_distance_route_stuck zeroRoutes zeroRouteTaxi 100 800 zeroRoute
    (by decide) (by decide) (by decide)
  exact ⟨h.1.trans (by decide), h.2.1.trans (by decide), h.2.2.trans (by decide)⟩

/-- Counterexample to C3 as stated: on the zero-distance route the entity does
not advance to its next route on the tick — the whole taxi state is literally
unchanged (progress stays 0, index stays 0, the current route is still the
zero-distance route, not the next one). -/
theorem zero_distance_route_counterexample :
    zeroRouteTaxi.current_route = some zeroRoute
    ∧ zeroRoute.distance_km = 0
    ∧ updateTaxiPosition zeroRoutes zeroRouteTaxi 100 800 = zeroRouteTaxi
    ∧ (updateTaxiPosition zeroRoutes zeroRouteTaxi 100 800).route_index ≠ 1
    ∧ (updateTaxiPosition zeroRoutes zeroRouteTaxi 100 800).current_route ≠ some taxiARoute2 := by
  decide

/-! ## `search_taxis_by_zone` -/

/-- Boolean prefix test on character lists agrees with the existence of a
completing suffix. -/
theorem isPrefixOf_iff_append : ∀ (l₁ l₂ : List Char),
    l₁.isPrefixOf l₂ = true ↔ ∃ rest, l₂ = l₁ ++ rest
  | [], l₂ => by simp [List.isPrefixOf]
  | a :: as, [] => by simp [List.isPrefixOf]
  | a :: as, b :: bs => by
    simp only [List.isPrefixOf, Bool.and_eq_true, beq_iff_eq,
      isPrefixOf_iff_append as bs]
    constructor
    · rintro ⟨rfl, rest, rfl⟩
      exact ⟨rest, rfl⟩
    · rintro ⟨rest, hrest⟩
      rw [List.cons_append] at hrest
      injection hrest with h1 h2
      exact ⟨h1.symm, rest, h2⟩

/-- Python's substring test agrees with the existence of a decomposition
`hay = pre ++ needle ++ post`. -/
theorem strContains_iff : ∀ (hay needle : List Char),
    strContains hay needle = true ↔ ∃ pre post, hay = pre ++ needle ++ post
  | [], needle => by
    simp only [strContains, beq_iff_eq]
    constructor
    · rintro rfl
      exact ⟨[], [], rfl⟩
    · rintro ⟨pre, post, h⟩
      rcases List.append_eq_nil.mp (List.append_eq_nil.mp h.symm).1 with ⟨-, h2⟩
      exact h2
  | c :: tl, needle => by
    simp only [strContains, Bool.or_eq_true, isPrefixOf_iff_append,
      strContains_iff tl needle]
    constructor
    · rintro (⟨rest, hrest⟩ | ⟨pre, post, hp⟩)
      · exact ⟨[], rest, by simpa using hrest⟩
      · exact ⟨c :: pre, post, by simp [hp]⟩
    · rintro ⟨pre, post, hp⟩
      cases pre with
      | nil => exact Or.inl ⟨post, by simpa using hp⟩
      | cons p ps =>
        rw [List.cons_append, List.cons_append] at hp
        injection hp with h1 h2
        exact Or.inr ⟨ps, post, h2⟩

/-- C10 (amended): `search_taxis_by_zone` returns exactly the entities whose
`current_zone` is non-null, non-empty, and contains the query as a
case-insensitive substring; `None` (and empty) zones are silently excluded and
the search is total (never fails). -/
theorem search_by_zone_membership (taxis : List TaxiState) (zoneName : String) (t : TaxiState) :
    t ∈ searchTaxisByZone taxis zoneName ↔
      t ∈ taxis ∧ ∃ z, t.current_zone = some z ∧ z ≠ "" ∧
        ∃ pre post, lowerStr z = pre ++ lowerStr zoneName ++ post := by
  rw [searchTaxisByZone, List.mem_filter]
  refine and_congr_right fun _ => ?_
  cases hz : t.current_zone with
  | none => simp
  | some z =>
    rw [Bool.and_eq_true, bne_iff_ne, strContains_iff]
    constructor
    · rintro ⟨hne, pre, post, hp⟩
      exact ⟨z, rfl, hne, pre, post, hp⟩
    · rintro ⟨z', hz', hne, pre, post, hp⟩
      injection hz' with hzz
      subst hzz
      exact ⟨hne, pre, post, hp⟩

/-- Witness for C10 (amended): taxi_a (zone "Rhode Island") is found by the
query "Island", and the characterization yields the decomposition. -/
theorem search_by_zone_membership_witness :
    taxiAInit 900 ∈ [taxiAInit 900]
    ∧ ∃ z, (taxiAInit 900).current_zone = some z ∧ z ≠ "" ∧
        ∃ pre post, lowerStr z = pre ++ lowerStr "Island" ++ post :=
  (search_by_zone_membership [taxiAInit 900] "Island" (taxiAInit 900)).mp (by decide)

/-- Counterexample to C10 as stated: an entity whose `current_zone` is the
empty string is non-null, and the empty query is a (case-insensitive)
substring of it, yet `search_taxis_by_zone` excludes it (Python's truthiness
test `if taxi.current_zone` rejects the empty string). -/
theorem search_by_zone_counterexample :
    emptyZoneTaxi.current_zone ≠ none
    ∧ lowerStr "" = [] ++ lowerStr "" ++ []
    ∧ searchTaxisByZone [emptyZoneTaxi] "" = [] := by
  decide

/-- C1 (amended): for an entity at its route's pickup with progress 0,
route distance `D > 0` and speed `S > 0`, one tick with
`elapsed_seconds = D/S*3600` completes the route *within the tick*: the
progress is reset to 0 (not left at 1.0), the index advances by one modulo
the route count, the position teleports to the *next* route's pickup (not the
finished route's dropoff), and the tracker emits exactly one exit event for
the remembered zone followed by exactly one entry event for the zone of the
next pickup — when those differ and are non-empty — rolling the zone memory
forward. -/
theorem end_to_end_tick (routes : List TaxiRoute) (classify : ℚ → ℚ → Option String)
    (t : TaxiState) (newSpeed : ℚ) (r : TaxiRoute)
    (hr : t.current_route = some r)
    (hroute : routes[t.route_index]? = some r)
    (hst : t.status = "pickup")
    (hp : t.route_progress = 0)
    (hlat : t.current_lat = r.pickup.latitude)
    (hlng : t.current_lng = r.pickup.longitude)
    (hD : 0 < r.distance_km) (hS : 0 < t.speed_kmh) :
    ∃ next, routes[(t.route_index + 1) % routes.length]? = some next ∧
      ((simTick routes classify t (r.distance_km / t.speed_kmh * 3600) newSpeed).1.route_progress = 0
       ∧ (simTick routes classify t (r.distance_km / t.speed_kmh * 3600) newSpeed).1.route_index =
           (t.route_index + 1) % routes.length
       ∧ (simTick routes classify t (r.distance_km / t.speed_kmh * 3600) newSpeed).1.current_lat =
           next.pickup.latitude
       ∧ (simTick routes classify t (r.distance_km / t.speed_kmh * 3600) newSpeed).1.current_lng =
           next.pickup.longitude
       ∧ (simTick routes classify t (r.distance_km / t.speed_kmh * 3600) newSpeed).2 =
           (if classify next.pickup.longitude next.pickup.latitude = t.current_zone then []
            else
              (if truthy t.current_zone then
                 [{ vehicle_id := t.taxi_id, zone_name := t.current_zone.getD "",
                    event_type := "exit", latitude := next.pickup.latitude,
                    longitude := next.pickup.longitude }] else [])
              ++ (if truthy (classify next.pickup.longitude next.pickup.latitude) then
                 [{ vehicle_id := t.taxi_id,
                    zone_name := (classify next.pickup.longitude next.pickup.latitude).getD "",
                    event_type := "entry", latitude := next.pickup.latitude,
                    longitude := next.pickup.longitude }] else []))
       ∧ (classify next.pickup.longitude next.pickup.latitude ≠ t.current_zone →
            (simTick routes classify t (r.distance_km / t.speed_kmh * 3600) newSpeed).1.current_zone =
              classify next.pickup.longitude next.pickup.latitude ∧
            (simTick routes classify t (r.distance_km / t.speed_kmh * 3600) newSpeed).1.previous_zone =
              t.current_zone)) := by
  have hS0 : t.speed_kmh ≠ 0 := ne_of_gt hS
  have hD0 : r.distance_km ≠ 0 := ne_of_gt hD
  have hinc : progressIncrement t r (r.distance_km / t.speed_kmh * 3600) = 1 := by
    unfold progressIncrement
    rw [if_pos hD]
    field_simp
    ring
  have hmin : min 1 (t.route_progress +
      progressIncrement t r (r.distance_km / t.speed_kmh * 3600)) = 1 := by
    rw [hp, hinc, zero_add, min_self]
  obtain ⟨t', hupd, hidx', hid', hcz', hpz'⟩ :=
    updateTaxiPosition_complete routes t (r.distance_km / t.speed_kmh * 3600) newSpeed r hr
      (le_of_eq hmin.symm)
  obtain ⟨hidxlen, -⟩ := List.getElem?_eq_some.mp hroute
  have hidxlt' : t'.route_index < routes.length := by rw [hidx']; exact hidxlen
  obtain ⟨h0, hmod, -, -, hczq, hpzq, hidq, next, hget, hroute', hlatq, hlngq, -⟩ :=
    completeCurrentRoute_spec routes t' newSpeed hidxlt'
  rw [hidx'] at hget hmod
  have hucz : (completeCurrentRoute routes t' newSpeed).current_zone = t.current_zone :=
    hczq.trans hcz'
  have huid : (completeCurrentRoute routes t' newSpeed).taxi_id = t.taxi_id :=
    hidq.trans hid'
  have hsim : simTick routes classify t (r.distance_km / t.speed_kmh * 3600) newSpeed =
      checkZoneTransitions classify (completeCurrentRoute routes t' newSpeed) := by
    rw [simTick, hupd]
  refine ⟨next, hget, ?_⟩
  rw [hsim]
  have hkey : classify (completeCurrentRoute routes t' newSpeed).current_lng
      (completeCurrentRoute routes t' newSpeed).current_lat =
      classify next.pickup.longitude next.pickup.latitude := by
    rw [hlngq, hlatq]
  by_cases hcls : classify next.pickup.longitude next.pickup.latitude = t.current_zone
  · have hbr : checkZoneTransitions classify (completeCurrentRoute routes t' newSpeed) =
        (completeCurrentRoute routes t' newSpeed, []) := by
      rw [checkZoneTransitions, hkey, hucz, if_pos hcls]
    rw [hbr]
    exact ⟨h0, hmod, hlatq, hlngq, by rw [if_pos hcls], fun hne => absurd hcls hne⟩
  · have hbr : checkZoneTransitions classify (completeCurrentRoute routes t' newSpeed) =
        ({ completeCurrentRoute routes t' newSpeed with
             previous_zone := t.current_zone,
             current_zone := classify next.pickup.longitude next.pickup.latitude },
         (if truthy t.current_zone then
            [{ vehicle_id := t.taxi_id, zone_name := t.current_zone.getD "",
               event_type := "exit", latitude := next.pickup.latitude,
               longitude := next.pickup.longitude }] else [])
         ++ (if truthy (classify next.pickup.longitude next.pickup.latitude) then
            [{ vehicle_id := t.taxi_id,
               zone_name := (classify next.pickup.longitude next.pickup.latitude).getD "",
               event_type := "entry", latitude := next.pickup.latitude,
               longitude := next.pickup.longitude }] else [])) := by
      rw [checkZoneTransitions, hkey, hucz, if_neg hcls]
      simp only [mkTraceEvent, hucz, huid, hlatq, hlngq]
    rw [hbr]
    refine ⟨h0, hmod, hlatq, hlngq, by rw [if_neg hcls], fun _ => ⟨rfl, rfl⟩⟩

/-- Witness for C1 (amended): taxi_a at Rhode Island's pickup with speed 900
and elapsed `92.31/900*3600` lands on route 2's pickup (Alabama) with progress
0 and emits exit("Rhode Island") then entry("Alabama"). -/
theorem end_to_end_tick_witness :
    ∃ next, taxiARoutes[((taxiAInit 900).route_index + 1) % taxiARoutes.length]? = some next ∧
      ((simTick taxiARoutes classify_point_fallback (taxiAInit 900)
          (taxiARoute1.distance_km / (taxiAInit 900).speed_kmh * 3600) 777).1.route_progress = 0
       ∧ (simTick taxiARoutes classify_point_fallback (taxiAInit 900)
          (taxiARoute1.distance_km / (taxiAInit 900).speed_kmh * 3600) 777).1.route_index =
           ((taxiAInit 900).route_index + 1) % taxiARoutes.length
       ∧ (simTick taxiARoutes classify_point_fallback (taxiAInit 900)
          (taxiARoute1.distance_km / (taxiAInit 900).speed_kmh * 3600) 777).1.current_lat =
           next.pickup.latitude
       ∧ (simTick taxiARoutes classify_point_fallback (taxiAInit 900)
          (taxiARoute1.distance_km / (taxiAInit 900).speed_kmh * 3600) 777).1.current_lng =
           next.pickup.longitude
       ∧ (simTick taxiARoutes classify_point_fallback (taxiAInit 900)
          (taxiARoute1.distance_km / (taxiAInit 900).speed_kmh * 3600) 777).2 =
           (if classify_point_fallback next.pickup.longitude next.pickup.latitude =
               (taxiAInit 900).current_zone then []
            else
              (if truthy (taxiAInit 900).current_zone then
                 [{ vehicle_id := (taxiAInit 900).taxi_id,
                    zone_name := ((taxiAInit 900).current_zone).getD "",
                    event_type := "exit", latitude := next.pickup.latitude,
                    longitude := next.pickup.longitude }] else [])
              ++ (if truthy (classify_point_fallback next.pickup.longitude next.pickup.latitude) then
                 [{ vehicle_id := (taxiAInit 900).taxi_id,
                    zone_name := (classify_point_fallback next.pickup.longitude
                      next.pickup.latitude).getD "",
                    event_type := "entry", latitude := next.pickup.latitude,
                    longitude := next.pickup.longitude }] else []))
       ∧ (classify_point_fallback next.pickup.longitude next.pickup.latitude ≠
            (taxiAInit 900).current_zone →
            (simTick taxiARoutes classify_point_fallback (taxiAInit 900)
              (taxiARoute1.distance_km / (taxiAInit 900).speed_kmh * 3600) 777).1.current_zone =
              classify_point_fallback next.pickup.longitude next.pickup.latitude ∧
            (simTick taxiARoutes classify_point_fallback (taxiAInit 900)
              (taxiARoute1.distance_km / (taxiAInit 900).speed_kmh * 3600) 777).1.previous_zone =
              (taxiAInit 900).current_zone)) :=
  end_to_end_tick taxiARoutes classify_point_fallback (taxiAInit 900) 777 taxiARoute1
    (by decide) (by decide) (by decide) (by decide) (by decide) (by decide)
    (by decide) (by decide)

/-- Counterexample to C1 as stated: after the end-to-end tick, taxi_a's
progress is 0 — not 1.0 — its position is the *next* route's pickup (Alabama,
latitude 32.318231), not the dropoff (Massachusetts, latitude 42.407211), and
the entry event names Alabama, not the dropoff's region. -/
theorem end_to_end_tick_counterexample :
    (simTick taxiARoutes classify_point_fallback (taxiAInit 900)
        (taxiARoute1.distance_km / 900 * 3600) 777).1.route_progress = 0
    ∧ (simTick taxiARoutes classify_point_fallback (taxiAInit 900)
        (taxiARoute1.distance_km / 900 * 3600) 777).1.route_progress ≠ 1
    ∧ (simTick taxiARoutes classify_point_fallback (taxiAInit 900)
        (taxiARoute1.distance_km / 900 * 3600) 777).1.current_lat = 32.318231
    ∧ (simTick taxiARoutes classify_point_fallback (taxiAInit 900)
        (taxiARoute1.distance_km / 900 * 3600) 777).1.current_lat ≠
        taxiARoute1.dropoff.latitude
    ∧ (simTick taxiARoutes classify_point_fallback (taxiAInit 900)
        (taxiARoute1.distance_km / 900 * 3600) 777).2 =
        [{ vehicle_id := "taxi_a", zone_name := "Rhode Island", event_type := "exit",
           latitude := 32.318231, longitude := -86.902298 },
         { vehicle_id := "taxi_a", zone_name := "Alabama", event_type := "entry",
           latitude := 32.318231, longitude := -86.902298 }]
    ∧ ∀ e ∈ (simTick taxiARoutes classify_point_fallback (taxiAInit 900)
        (taxiARoute1.distance_km / 900 * 3600) 777).2, e.zone_name ≠ "Massachusetts" := by
  decide
